import Mathlib

/-!
Shallow embedding of `deploy.py` from google/cwv_in_ga4.

The script manipulates external cloud state: BigQuery data-transfer configs
(scheduled queries) and the GCP region listing.  The cloud state is embedded
as a list of `TransferConfig` records; each API call of the script becomes a
function on that state.  Exceptions of the Python API surface as `Except`.
-/

/-- A BigQuery data-transfer config (a scheduled query is one whose
`data_source_id` is `"scheduled_query"`).  `parent` is the location path the
config lives under (`projects/<p>/locations/<l>`), `name` the server-assigned
resource name, `params_query` the `'query'` entry of its params. -/
structure TransferConfig where
  name : String
  parent : String
  display_name : String
  data_source_id : String
  params_query : String
  schedule : String
deriving Repr, DecidableEq

/-- `DataTransferServiceClient.common_location_path(project, location)`. -/
def common_location_path (project : String) (location : String) : String :=
  "projects/" ++ project ++ "/locations/" ++ location

/-- `list_transfer_configs` with a `ListTransferConfigsRequest(parent=parent,
data_source_ids=...)`: the configs under `parent` whose data source id is one
of `data_source_ids`, in state order. -/
def list_transfer_configs (state : List TransferConfig) (parent : String)
    (data_source_ids : List String) : List TransferConfig :=
  state.filter (fun c => c.parent == parent && data_source_ids.contains c.data_source_id)

/-- `delete_transfer_config(name=...)`: removes the config(s) carrying the
given resource name.  (The cloud API keys resources by their unique `name`;
theorems below assume names are distinct via a `Nodup` hypothesis.) -/
def delete_transfer_config (state : List TransferConfig) (name : String) :
    List TransferConfig :=
  state.filter (fun c => c.name != name)

/-- `delete_scheduled_query(display_name, project_id, region)` from deploy.py:
lists the transfer configs under the project/region parent with data source
`'scheduled_query'` and deletes each one whose display name equals
`display_name`. -/
def delete_scheduled_query (display_name : String) (project_id : String)
    (region : String) (state : List TransferConfig) : List TransferConfig :=
  let parent := common_location_path project_id region
  let configs := list_transfer_configs state parent ["scheduled_query"]
  configs.foldl
    (fun st config =>
      if config.display_name = display_name then delete_transfer_config st config.name
      else st)
    state

/-- The literal text of the `materialize_query` f-string before the first
`{project_id}` substitution site. -/
def mq_header : String :=
  "
-- Copyright 2021 Google LLC
-- Licensed under the Apache License, Version 2.0 (the \"License\");
-- you may not use this file except in compliance with the License.
-- You may obtain a copy of the License at

--     https://www.apache.org/licenses/LICENSE-2.0

-- Unless required by applicable law or agreed to in writing, software
-- distributed under the License is distributed on an \"AS IS\" BASIS,
-- WITHOUT WARRANTIES OR CONDITIONS OF ANY KIND, either express or implied.
-- See the License for the specific language governing permissions and
-- limitations under the License.

-- Materialize Web Vitals metrics from GA4 event export data

CREATE OR REPLACE TABLE `"

/-- The literal text of the `materialize_query` f-string between the
`...web_vitals_summary` table identifier and the second `{project_id}`
substitution site. -/
def mq_mid : String :=
  "`
  PARTITION BY DATE(event_timestamp)
  CLUSTER BY metric_name
AS
SELECT
  ga_session_id,
  IF(
    EXISTS(
      SELECT 1
      FROM UNNEST(events) AS e
      WHERE e.event_name = 'first_visit'
    ),
    'New user',
    'Returning user') AS user_type,
  IF(
    (SELECT MAX(session_engaged) FROM UNNEST(events)) > 0, 'Engaged', 'Not engaged')
    AS session_engagement,
  evt.* EXCEPT (session_engaged, event_name),
  event_name AS metric_name,
  FORMAT_TIMESTAMP('%Y%m%d', event_timestamp) AS event_date
FROM
  (
    SELECT
      ga_session_id,
      ARRAY_AGG(custom_event) AS events
    FROM
      (
        SELECT
          ga_session_id,
          STRUCT(
            country,
            device_category,
            device_os,
            traffic_medium,
            traffic_name,
            traffic_source,
            page_path,
            debug_target,
            event_timestamp,
            event_name,
            metric_id,
            IF(event_name = 'LCP', metric_value / 1000, metric_value)
              AS metric_value,
            user_pseudo_id,
            session_engaged,
            session_revenue) AS custom_event
        FROM
          (
            SELECT
              (SELECT value.int_value FROM UNNEST(event_params) WHERE key = 'ga_session_id')
                AS ga_session_id,
              (SELECT value.string_value FROM UNNEST(event_params) WHERE key = 'metric_id')
                AS metric_id,
              ANY_VALUE(device.category) AS device_category,
              ANY_VALUE(device.operating_system) AS device_os,
              ANY_VALUE(traffic_source.medium) AS traffic_medium,
              ANY_VALUE(traffic_source.name) AS traffic_name,
              ANY_VALUE(traffic_source.source) AS traffic_source,
              ANY_VALUE(
                REGEXP_SUBSTR(
                  (SELECT value.string_value FROM UNNEST(event_params) WHERE key = 'page_location'),
                  r'^[^?]+')) AS page_path,
              ANY_VALUE(
                (SELECT value.string_value FROM UNNEST(event_params) WHERE key = 'debug_target'))
                AS debug_target,
              ANY_VALUE(user_pseudo_id) AS user_pseudo_id,
              ANY_VALUE(geo.country) AS country,
              ANY_VALUE(event_name) AS event_name,
              SUM(ecommerce.purchase_revenue) AS session_revenue,
              MAX(
                (
                  SELECT
                    COALESCE(
                      value.double_value,
                      value.int_value,
                      CAST(value.string_value AS NUMERIC))
                  FROM UNNEST(event_params)
                  WHERE key = 'session_engaged'
                )) AS session_engaged,
              TIMESTAMP_MICROS(MAX(event_timestamp)) AS event_timestamp,
              MAX(
                (
                  SELECT COALESCE(value.double_value, value.int_value)
                  FROM UNNEST(event_params)
                  WHERE key = 'metric_value'
                )) AS metric_value,
            FROM
              # Replace source table name
              `"

/-- The literal text of the `materialize_query` f-string after the
`...events_*` table identifier. -/
def mq_tail : String :=
  "`
            WHERE
              event_name IN ('LCP', 'FID', 'CLS', 'first_visit', 'purchase')
            GROUP BY
              1, 2
          )
      )
    WHERE
      ga_session_id IS NOT NULL
    GROUP BY ga_session_id
  )
CROSS JOIN UNNEST(events) AS evt
WHERE evt.event_name NOT IN ('first_visit', 'purchase');
  "

/-- The `materialize_query` f-string of `deploy_scheduled_materialize_query`:
the literal template text with `{project_id}` and `{ga_property}` substituted
by concatenation exactly at the two substitution sites of the source. -/
def materialize_query (project_id : String) (ga_property : String) : String :=
  mq_header ++ project_id ++ ".analytics_" ++ ga_property ++ ".web_vitals_summary"
    ++ mq_mid ++ project_id ++ ".analytics_" ++ ga_property ++ ".events_*" ++ mq_tail

/-- `s` contains `pattern` as a contiguous substring. -/
def strContains (s : String) (pattern : String) : Prop :=
  ∃ pre post, s = pre ++ pattern ++ post

/-- The `TransferConfig` passed to `create_transfer_config` by
`deploy_scheduled_materialize_query`: display name, data source, params query
and schedule as set in the source; `name` is empty until the server assigns
one. -/
def deploy_requested_config (project_id : String) (region : String)
    (ga_property : String) : TransferConfig :=
  { name := ""
    parent := common_location_path project_id region
    display_name := "Update Web Vitals Summary"
    data_source_id := "scheduled_query"
    params_query := materialize_query project_id ga_property
    schedule := "every 24 hours" }

/-- `create_transfer_config`: the server either assigns a resource name and
stores the config (appended to the listing), or raises, which surfaces as
`Except.error`. -/
def create_transfer_config (state : List TransferConfig) (config : TransferConfig)
    (api_result : Except String String) : Except String (List TransferConfig) :=
  match api_result with
  | Except.ok assigned_name => Except.ok (state ++ [{ config with name := assigned_name }])
  | Except.error e => Except.error e

/-- `deploy_scheduled_materialize_query(project_id, region, ga_property)`:
deletes every scheduled query named 'Update Web Vitals Summary' under the
project/region, then issues the create call (whose server response is the
`create_api` oracle).  Returns the script's outcome (an uncaught exception
propagates as `Except.error`) together with the resulting cloud state. -/
def deploy_scheduled_materialize_query_run (project_id : String) (region : String)
    (ga_property : String) (create_api : Except String String)
    (state : List TransferConfig) :
    Except String (List TransferConfig) × List TransferConfig :=
  let state1 := delete_scheduled_query "Update Web Vitals Summary" project_id region state
  match create_transfer_config state1
      (deploy_requested_config project_id region ga_property) create_api with
  | Except.ok state2 => (Except.ok state2, state2)
  | Except.error e => (Except.error e, state1)

/-- Whether a config is a scheduled query under `parent` displaying
`display_name` (the ones `delete_scheduled_query` deletes). -/
def wvs_match (parent : String) (display_name : String) (c : TransferConfig) : Bool :=
  c.parent == parent && c.data_source_id == "scheduled_query"
    && c.display_name == display_name

/-- One item of a `regions().list` response page: the `'name'` key may be
absent. -/
structure RegionItem where
  name : Option String
deriving Repr, DecidableEq

/-- One page of the `regions().list` response sequence, optionally carrying a
`nextPageToken`. -/
structure RegionsPage where
  items : List RegionItem
  nextPageToken : Option String
deriving Repr, DecidableEq

/-- The inner `for region in response['items']` loop of `get_gcp_regions`:
appends `region['name']` to the accumulator when the key is present and the
name is not the empty string. -/
def regions_page_fold (acc : List String) (items : List RegionItem) : List String :=
  items.foldl
    (fun acc item =>
      match item.name with
      | some n => if n ≠ "" then acc ++ [n] else acc
      | none => acc)
    acc

/-- The `while request is not None` loop of `get_gcp_regions` run against a
finite scripted response sequence: each executed request yields the next page;
a page with a `nextPageToken` issues a further request, one without ends the
loop. -/
def get_gcp_regions_loop : List RegionsPage → List String → List String
  | [], regions => regions
  | page :: rest, regions =>
    let regions := regions_page_fold regions page.items
    match page.nextPageToken with
    | some _ => get_gcp_regions_loop rest regions
    | none => regions

/-- `get_gcp_regions(credentials, project_id)` against the scripted response
sequence `pages`. -/
def get_gcp_regions (pages : List RegionsPage) : List String :=
  get_gcp_regions_loop pages []

/-- Step-indexed version of the pagination loop: `none` means the loop was
still running after `fuel` iterations.  Termination of the script's loop on a
finite response sequence is the existence of enough fuel. -/
def get_gcp_regions_fuel : Nat → List RegionsPage → List String → Option (List String)
  | _, [], regions => some regions
  | 0, _ :: _, _ => none
  | fuel + 1, page :: rest, regions =>
    let regions := regions_page_fold regions page.items
    match page.nextPageToken with
    | some _ => get_gcp_regions_fuel fuel rest regions
    | none => some regions

/-- A well-formed scripted listing: every page but the last links to the next
page with a `nextPageToken`, and the last page carries none. -/
def pages_wf : List RegionsPage → Bool
  | [] => true
  | [p] => p.nextPageToken.isNone
  | p :: rest => p.nextPageToken.isSome && pages_wf rest

/-- The names the code keeps from one page: the items' names in page order,
skipping items without a `'name'` key and items whose name is empty. -/
def page_kept_names (page : RegionsPage) : List String :=
  page.items.filterMap
    (fun item =>
      match item.name with
      | some n => if n = "" then none else some n
      | none => none)

/-- Written to the spec's words for comparison with `get_gcp_regions`
("the returned list is exactly the sequence of names of the items of all
pages, in API-provided order"): every present name of every item, unfiltered. -/
def spec_all_item_names (pages : List RegionsPage) : List String :=
  (pages.map (fun page => page.items.filterMap (fun item => item.name))).flatten

/-- Python truthiness of an optional string flag: unset or empty is falsy. -/
def falsy_str : Option String → Bool
  | none => true
  | some s => s == ""

/-- Python truthiness of the `type=int` `--ga-property` flag: unset or 0 is
falsy. -/
def falsy_int : Option Int → Bool
  | none => true
  | some n => n == 0

/-- Python's `str.strip()` (whitespace on both ends removed). -/
def py_strip (s : String) : String :=
  ⟨((s.data.dropWhile Char.isWhitespace).reverse.dropWhile Char.isWhitespace).reverse⟩

/-- Python's `str.isdigit()`: nonempty and all digits. -/
def py_isdigit (s : String) : Bool :=
  !s.data.isEmpty && s.data.all Char.isDigit

/-- The observable steps of a run of `main`: interactive prompts and cloud API
calls, in program order. -/
inductive Event where
  | promptRegion
  | promptProperty
  | promptEmailServer
  | promptEmailUser
  | promptEmailPassword
  | promptAlertRecipients
  | callRegionsList
  | callListTransferConfigs
  | callDeleteTransferConfig
  | callCreateTransferConfig
deriving Repr, DecidableEq

/-- How a run of `main` ends.  `scriptEnded` is a model artifact: the finite
stdin script ran out before the program asked for more input. -/
inductive Outcome where
  | ok
  | systemExit (msg : String)
  | keyError (key : String)
  | scriptEnded
deriving Repr, DecidableEq

/-- The parsed command-line flags `main` consults (threshold and unreachable
flags omitted: `main` never reads them). -/
structure Args where
  ga_property : Option Int
  region : Option String
  email_server : Option String
  email_user : Option String
  email_password : Option String
  alert_recipients : Option String
deriving Repr, DecidableEq

/-- The ambient environment of a run of `main`: the project id resolved by
`google.auth.default()` (None surfaces as `none`), the
`GOOGLE_CLOUD_PROJECT` variable if set, the scripted interactive input, and
the cloud transfer-config state. -/
structure Env where
  credentials_project : Option String
  google_cloud_project : Option String
  stdin : List String
  transfer_state : List TransferConfig
deriving Repr, DecidableEq

/-- Lines 286-288 of deploy.py: `credentials, project_id =
google.auth.default()` followed by `if project_id is None or project_id == '':
project_id = os.environ['GOOGLE_CLOUD_PROJECT']`.  A missing variable raises
`KeyError`, which no handler catches. -/
def resolve_project_id (credentials_project : Option String)
    (google_cloud_project : Option String) : Except String String :=
  match credentials_project with
  | none =>
    match google_cloud_project with
    | some v => Except.ok v
    | none => Except.error "GOOGLE_CLOUD_PROJECT"
  | some p =>
    if p = "" then
      match google_cloud_project with
      | some v => Except.ok v
      | none => Except.error "GOOGLE_CLOUD_PROJECT"
    else Except.ok p

/-- The `while args.region == 'list'` sub-loop: on `'list'`, call
`get_gcp_regions`, print, and prompt again; otherwise the (already stripped)
answer is the region.  `none` means the stdin script ran out. -/
def region_loop : String → List String → List Event × Option (String × List String)
  | r, [] =>
    if r = "list" then ([Event.callRegionsList, Event.promptRegion], none)
    else ([], some (r, []))
  | r, s :: rest =>
    if r = "list" then
      let p := region_loop (py_strip s) rest
      (Event.callRegionsList :: Event.promptRegion :: p.1, p.2)
    else ([], some (r, s :: rest))

/-- Lines 290-298 of deploy.py: prompt for the region when the flag is falsy,
re-prompting through the `'list'` sub-loop; a set flag is used as-is with no
prompt. -/
def region_phase (region_flag : Option String) (stdin : List String) :
    List Event × Option (String × List String) :=
  if falsy_str region_flag then
    match stdin with
    | [] => ([Event.promptRegion], none)
    | s :: rest =>
      let p := region_loop (py_strip s) rest
      (Event.promptRegion :: p.1, p.2)
  else ([], some (region_flag.getD "", stdin))

/-- One `if not args.x: args.x = input(...)` block of the email-parameter
section: a prompt consuming one stdin line when the flag is falsy. -/
def prompt_if_missing (flag : Option String) (e : Event) (stdin : List String) :
    Option (List Event × List String) :=
  if falsy_str flag then
    match stdin with
    | [] => none
    | _ :: rest => some ([e], rest)
  else some ([], stdin)

/-- The API calls `deploy_scheduled_materialize_query` issues: one transfer
listing, one delete per matching scheduled query, one create. -/
def deploy_events (project_id : String) (region : String)
    (state : List TransferConfig) : List Event :=
  let parent := common_location_path project_id region
  let configs := list_transfer_configs state parent ["scheduled_query"]
  Event.callListTransferConfigs
    :: ((configs.filter (fun c => c.display_name == "Update Web Vitals Summary")).map
          (fun _ => Event.callDeleteTransferConfig)
        ++ [Event.callCreateTransferConfig])

/-- Lines 306-326 of deploy.py: the four email prompts, then the deployment
calls (the three remaining deploy functions are empty stubs). -/
def main_emails (project_id : String) (region : String) (args : Args)
    (ev : List Event) (stdin : List String) (state : List TransferConfig) :
    List Event × Outcome :=
  match prompt_if_missing args.email_server Event.promptEmailServer stdin with
  | none => (ev, Outcome.scriptEnded)
  | some (e1, stdin1) =>
    match prompt_if_missing args.email_user Event.promptEmailUser stdin1 with
    | none => (ev ++ e1, Outcome.scriptEnded)
    | some (e2, stdin2) =>
      match prompt_if_missing args.email_password Event.promptEmailPassword stdin2 with
      | none => (ev ++ e1 ++ e2, Outcome.scriptEnded)
      | some (e3, stdin3) =>
        match prompt_if_missing args.alert_recipients Event.promptAlertRecipients stdin3 with
        | none => (ev ++ e1 ++ e2 ++ e3, Outcome.scriptEnded)
        | some (e4, _) =>
          (ev ++ e1 ++ e2 ++ e3 ++ e4 ++ deploy_events project_id region state,
            Outcome.ok)

/-- `main()` of deploy.py over scripted input: resolve the project id (a
missing `GOOGLE_CLOUD_PROJECT` raises `KeyError` before anything else), run
the region phase, validate the interactively supplied GA property id
(`raise SystemExit` when not `isdigit`), collect the email parameters, then
deploy.  Returns the observable trace and the outcome. -/
def main_run (args : Args) (env : Env) : List Event × Outcome :=
  match resolve_project_id env.credentials_project env.google_cloud_project with
  | Except.error key => ([], Outcome.keyError key)
  | Except.ok project_id =>
    match region_phase args.region env.stdin with
    | (ev, none) => (ev, Outcome.scriptEnded)
    | (ev, some (region, stdin1)) =>
      if falsy_int args.ga_property then
        match stdin1 with
        | [] => (ev ++ [Event.promptProperty], Outcome.scriptEnded)
        | s :: rest =>
          if py_isdigit (py_strip s) then
            main_emails project_id region args (ev ++ [Event.promptProperty]) rest
              env.transfer_state
          else
            (ev ++ [Event.promptProperty],
              Outcome.systemExit "Only GA4 properties are supported at this time.")
      else main_emails project_id region args ev stdin1 env.transfer_state
/-! ### Helper lemmas -/

lemma foldl_delete_eq_filter (dn : String) (cfgs : List TransferConfig) :
    ∀ st : List TransferConfig,
      cfgs.foldl
        (fun st config =>
          if config.display_name = dn then delete_transfer_config st config.name else st)
        st
      = st.filter
          (fun c => cfgs.all (fun cfg => !(cfg.display_name == dn) || c.name != cfg.name)) := by
  induction cfgs with
  | nil => intro st; simp
  | cons cfg cfgs ih =>
    intro st
    simp only [List.foldl_cons, List.all_cons]
    rw [ih]
    by_cases hd : cfg.display_name = dn
    · simp only [hd, if_pos, delete_transfer_config, List.filter_filter, beq_self_eq_true,
        Bool.not_true, Bool.false_or]
      exact List.filter_congr (fun c _ => by rw [Bool.and_comm])
    · simp only [hd, if_neg, not_false_eq_true]
      refine List.filter_congr (fun c _ => ?_)
      have : (cfg.display_name == dn) = false := by simp [hd]
      simp [this]

lemma mem_listed_iff (state : List TransferConfig) (parent : String) (c : TransferConfig) :
    c ∈ list_transfer_configs state parent ["scheduled_query"]
      ↔ c ∈ state ∧ c.parent = parent ∧ c.data_source_id = "scheduled_query" := by
  simp [list_transfer_configs, List.mem_filter, and_assoc]

lemma wvs_match_true_iff (parent dn : String) (c : TransferConfig) :
    wvs_match parent dn c = true
      ↔ c.parent = parent ∧ c.data_source_id = "scheduled_query" ∧ c.display_name = dn := by
  simp [wvs_match, and_assoc]

lemma delete_scheduled_query_eq_filter (dn pid region : String)
    (state : List TransferConfig)
    (hN : (state.map (fun c => c.name)).Nodup) :
    delete_scheduled_query dn pid region state
      = state.filter (fun c => !(wvs_match (common_location_path pid region) dn c)) := by
  unfold delete_scheduled_query
  rw [foldl_delete_eq_filter]
  refine List.filter_congr (fun c hc => ?_)
  by_cases hm : wvs_match (common_location_path pid region) dn c = true
  · obtain ⟨hp, hds, hdn⟩ := (wvs_match_true_iff _ _ _).mp hm
    have hcl : c ∈ list_transfer_configs state (common_location_path pid region)
        ["scheduled_query"] := (mem_listed_iff _ _ _).mpr ⟨hc, hp, hds⟩
    have : ¬ ((list_transfer_configs state (common_location_path pid region)
        ["scheduled_query"]).all
          (fun cfg => !(cfg.display_name == dn) || c.name != cfg.name) = true) := by
      intro hall
      have := (List.all_eq_true.mp hall) c hcl
      simp [hdn] at this
    simp only [hm, Bool.not_true]
    exact Bool.eq_false_iff.mpr this
  · have hm' : wvs_match (common_location_path pid region) dn c = false :=
      Bool.eq_false_iff.mpr hm
    simp only [hm', Bool.not_false]
    refine List.all_eq_true.mpr (fun cfg hcfg => ?_)
    obtain ⟨hcfgs, hp, hds⟩ := (mem_listed_iff _ _ _).mp hcfg
    by_cases hdn : cfg.display_name = dn
    · have hne : c.name ≠ cfg.name := by
        intro hname
        have : c = cfg := List.inj_on_of_nodup_map hN hc hcfgs hname
        exact hm ((wvs_match_true_iff _ _ _).mpr (this ▸ ⟨hp, hds, hdn⟩))
      simp [hne]
    · simp [hdn]

lemma regions_page_fold_eq_append (items : List RegionItem) :
    ∀ acc : List String,
      regions_page_fold acc items
        = acc ++ items.filterMap
            (fun item =>
              match item.name with
              | some n => if n = "" then none else some n
              | none => none) := by
  induction items with
  | nil => intro acc; simp [regions_page_fold]
  | cons item rest ih =>
    intro acc
    have hstep : regions_page_fold acc (item :: rest)
        = regions_page_fold
            (match item.name with
              | some n => if n ≠ "" then acc ++ [n] else acc
              | none => acc) rest := rfl
    rw [hstep]
    cases hn : item.name with
    | none =>
      simp only [hn]
      rw [ih acc]
      simp [List.filterMap_cons, hn]
    | some n =>
      by_cases hne : n = ""
      · simp only [hn]
        rw [if_neg (by simp [hne]), ih acc]
        simp [List.filterMap_cons, hn, hne]
      · simp only [hn]
        rw [if_pos hne, ih (acc ++ [n])]
        simp [List.filterMap_cons, hn, hne]

lemma page_kept_names_eq (page : RegionsPage) :
    regions_page_fold [] page.items = page_kept_names page := by
  rw [regions_page_fold_eq_append]
  simp [page_kept_names]

lemma get_gcp_regions_loop_cons (page : RegionsPage) (rest : List RegionsPage)
    (acc : List String) :
    get_gcp_regions_loop (page :: rest) acc
      = match page.nextPageToken with
        | some _ => get_gcp_regions_loop rest (regions_page_fold acc page.items)
        | none => regions_page_fold acc page.items := rfl

lemma get_gcp_regions_loop_acc (pages : List RegionsPage) :
    ∀ acc : List String,
      get_gcp_regions_loop pages acc = acc ++ get_gcp_regions_loop pages [] := by
  induction pages with
  | nil => intro acc; simp [get_gcp_regions_loop]
  | cons page rest ih =>
    intro acc
    rw [get_gcp_regions_loop_cons, get_gcp_regions_loop_cons]
    cases htok : page.nextPageToken with
    | none =>
      rw [regions_page_fold_eq_append, regions_page_fold_eq_append]
      simp
    | some tok =>
      rw [ih (regions_page_fold acc page.items), ih (regions_page_fold [] page.items),
        regions_page_fold_eq_append, regions_page_fold_eq_append]
      simp

lemma get_gcp_regions_wf_flatten :
    ∀ pages : List RegionsPage, pages_wf pages = true →
      get_gcp_regions pages = (pages.map page_kept_names).flatten := by
  intro pages
  induction pages with
  | nil => intro _; rfl
  | cons page rest ih =>
    intro hwf
    cases rest with
    | nil =>
      have htok : page.nextPageToken = none := by
        cases h : page.nextPageToken with
        | none => rfl
        | some t => simp [pages_wf, h] at hwf
      simp only [get_gcp_regions, get_gcp_regions_loop_cons, htok, page_kept_names_eq]
      simp [get_gcp_regions_loop]
    | cons q rest' =>
      have hwf' : pages_wf (q :: rest') = true := by
        simp only [pages_wf, Bool.and_eq_true] at hwf
        exact hwf.2
      have htok : page.nextPageToken.isSome = true := by
        simp only [pages_wf, Bool.and_eq_true] at hwf
        exact hwf.1
      obtain ⟨t, ht⟩ := Option.isSome_iff_exists.mp htok
      have hrest := ih hwf'
      simp only [get_gcp_regions] at hrest
      simp only [get_gcp_regions]
      rw [get_gcp_regions_loop_cons]
      simp only [ht]
      rw [get_gcp_regions_loop_acc (q :: rest') (regions_page_fold [] page.items),
        page_kept_names_eq, hrest]
      simp

lemma get_gcp_regions_fuel_complete (pages : List RegionsPage) :
    ∀ (fuel : Nat) (acc : List String), pages.length ≤ fuel →
      get_gcp_regions_fuel fuel pages acc = some (get_gcp_regions_loop pages acc) := by
  induction pages with
  | nil => intro fuel acc _; cases fuel <;> rfl
  | cons page rest ih =>
    intro fuel acc hlen
    cases fuel with
    | zero => simp at hlen
    | succ f =>
      simp only [get_gcp_regions_fuel, get_gcp_regions_loop_cons]
      cases htok : page.nextPageToken with
      | none => rfl
      | some t =>
        exact ih f (regions_page_fold acc page.items) (Nat.le_of_succ_le_succ hlen)

lemma region_loop_events (stdin : List String) :
    ∀ (r : String) (e : Event), e ∈ (region_loop r stdin).1 →
      e = Event.callRegionsList ∨ e = Event.promptRegion := by
  induction stdin with
  | nil =>
    intro r e he
    by_cases hr : r = "list"
    · simp [region_loop, hr] at he
      tauto
    · simp [region_loop, hr] at he
  | cons s rest ih =>
    intro r e he
    by_cases hr : r = "list"
    · simp only [region_loop, hr, if_pos, List.mem_cons] at he
      rcases he with h | h | h
      · exact Or.inl h
      · exact Or.inr h
      · exact ih (py_strip s) e h
    · simp [region_loop, hr] at he

lemma region_phase_events (flag : Option String) (stdin : List String) (e : Event)
    (he : e ∈ (region_phase flag stdin).1) :
    e = Event.callRegionsList ∨ e = Event.promptRegion := by
  by_cases hf : falsy_str flag = true
  · simp only [region_phase, hf, if_pos] at he
    cases stdin with
    | nil =>
      simp at he
      exact Or.inr he
    | cons s rest =>
      simp only [List.mem_cons] at he
      rcases he with h | h
      · exact Or.inr h
      · exact region_loop_events rest (py_strip s) e h
  · simp only [region_phase, hf] at he
    simp at he

lemma main_emails_outcome (project_id region : String) (args : Args)
    (ev : List Event) (stdin : List String) (state : List TransferConfig) :
    (main_emails project_id region args ev stdin state).2 = Outcome.ok
      ∨ (main_emails project_id region args ev stdin state).2 = Outcome.scriptEnded := by
  unfold main_emails
  repeat' split
  all_goals simp

/-! ### Claim theorems -/

/-- C1: for every set of existing transfer configs (with the cloud API's
guarantee that resource names are distinct), `delete_scheduled_query
(display_name, project_id, region)` deletes exactly those scheduled-query
configs under the project/region parent whose display name equals
`display_name` by string equality (zero, one, or many), and every config
whose display name differs — or which is not a scheduled query under that
parent — is left untouched: the resulting state is the original state with
precisely the matching configs removed. -/
theorem delete_scheduled_query_deletes_exactly_matching
    (display_name project_id region : String) (state : List TransferConfig)
    (hN : (state.map (fun c => c.name)).Nodup) :
    delete_scheduled_query display_name project_id region state
      = state.filter
          (fun c => !(wvs_match (common_location_path project_id region) display_name c))
    ∧ ∀ c ∈ state,
        (c ∈ delete_scheduled_query display_name project_id region state
          ↔ wvs_match (common_location_path project_id region) display_name c = false) := by
  have h := delete_scheduled_query_eq_filter display_name project_id region state hN
  refine ⟨h, fun c hc => ?_⟩
  rw [h, List.mem_filter]
  constructor
  · rintro ⟨_, hb⟩
    simpa using hb
  · intro hb
    exact ⟨hc, by simp [hb]⟩

/-- Witness for C1 on a concrete three-config state: the scheduled query
displaying "A" is deleted, the one displaying "B" and the non-scheduled-query
config displaying "A" survive. -/
theorem delete_scheduled_query_deletes_exactly_matching_witness :
    delete_scheduled_query "A" "p" "r"
        [{ name := "n1", parent := "projects/p/locations/r", display_name := "A",
           data_source_id := "scheduled_query", params_query := "q1", schedule := "s1" },
         { name := "n2", parent := "projects/p/locations/r", display_name := "B",
           data_source_id := "scheduled_query", params_query := "q2", schedule := "s2" },
         { name := "n3", parent := "projects/p/locations/r", display_name := "A",
           data_source_id := "firestore", params_query := "q3", schedule := "s3" }]
      = [{ name := "n2", parent := "projects/p/locations/r", display_name := "B",
           data_source_id := "scheduled_query", params_query := "q2", schedule := "s2" },
         { name := "n3", parent := "projects/p/locations/r", display_name := "A",
           data_source_id := "firestore", params_query := "q3", schedule := "s3" }] := by
  rw [(delete_scheduled_query_deletes_exactly_matching "A" "p" "r" _ (by decide)).1]
  decide

/-- C10: `delete_scheduled_query` lists only configs whose data source id is
'scheduled_query'; a transfer config of any other data source is never
deleted, even when its display name equals the given one. -/
theorem delete_scheduled_query_keeps_other_data_sources
    (display_name project_id region : String) (state : List TransferConfig)
    (hN : (state.map (fun c => c.name)).Nodup) (c : TransferConfig) (hc : c ∈ state)
    (hds : c.data_source_id ≠ "scheduled_query") :
    c ∈ delete_scheduled_query display_name project_id region state := by
  rw [delete_scheduled_query_eq_filter display_name project_id region state hN]
  refine List.mem_filter.mpr ⟨hc, ?_⟩
  simp [wvs_match, hds]

/-- Witness for C10: a firestore transfer config displaying the deleted name
survives `delete_scheduled_query`. -/
theorem delete_scheduled_query_keeps_other_data_sources_witness :
    ({ name := "n1", parent := "projects/p/locations/r", display_name := "A",
       data_source_id := "firestore", params_query := "q1",
       schedule := "s1" } : TransferConfig)
      ∈ delete_scheduled_query "A" "p" "r"
          [{ name := "n1", parent := "projects/p/locations/r", display_name := "A",
             data_source_id := "firestore", params_query := "q1", schedule := "s1" }] :=
  delete_scheduled_query_keeps_other_data_sources "A" "p" "r" _ (by decide) _
    (by decide) (by decide)

/-- C2: for every project id, region and GA property,
`deploy_scheduled_materialize_query` submits a create request for a scheduled
query whose display name is 'Update Web Vitals Summary', whose schedule is
the fixed recurrence 'every 24 hours', and whose SQL payload is the literal
template with the inputs substituted in, so it contains the literal
identifiers `<project_id>.analytics_<ga_property>.web_vitals_summary` and
`<project_id>.analytics_<ga_property>.events_*`; on a successful create, the
submitted config (with the server-assigned name) is exactly what is stored. -/
theorem deploy_scheduled_materialize_query_request
    (project_id region ga_property : String) :
    (deploy_requested_config project_id region ga_property).display_name
        = "Update Web Vitals Summary"
    ∧ (deploy_requested_config project_id region ga_property).schedule = "every 24 hours"
    ∧ (deploy_requested_config project_id region ga_property).params_query
        = materialize_query project_id ga_property
    ∧ strContains (deploy_requested_config project_id region ga_property).params_query
        (project_id ++ ".analytics_" ++ ga_property ++ ".web_vitals_summary")
    ∧ strContains (deploy_requested_config project_id region ga_property).params_query
        (project_id ++ ".analytics_" ++ ga_property ++ ".events_*")
    ∧ ∀ (state : List TransferConfig) (assigned_name : String),
        deploy_scheduled_materialize_query_run project_id region ga_property
            (Except.ok assigned_name) state
          = (Except.ok
                (delete_scheduled_query "Update Web Vitals Summary" project_id region state
                  ++ [{ deploy_requested_config project_id region ga_property with
                        name := assigned_name }]),
              delete_scheduled_query "Update Web Vitals Summary" project_id region state
                ++ [{ deploy_requested_config project_id region ga_property with
                      name := assigned_name }]) := by
  refine ⟨rfl, rfl, rfl, ?_, ?_, fun state assigned_name => rfl⟩
  · refine ⟨mq_header,
      mq_mid ++ project_id ++ ".analytics_" ++ ga_property ++ ".events_*" ++ mq_tail, ?_⟩
    show materialize_query project_id ga_property = _
    simp [materialize_query, String.append_assoc]
  · refine ⟨mq_header ++ project_id ++ ".analytics_" ++ ga_property
        ++ ".web_vitals_summary" ++ mq_mid, mq_tail, ?_⟩
    show materialize_query project_id ga_property = _
    simp [materialize_query, String.append_assoc]

/-- C3: `deploy_scheduled_materialize_query` deletes first and creates
second: when the create call succeeds, the resulting state is the
delete-pass result with the new config appended, and it holds exactly one
scheduled query under the project/region displaying
'Update Web Vitals Summary'. -/
theorem deploy_scheduled_materialize_query_delete_then_create
    (project_id region ga_property assigned_name : String)
    (state : List TransferConfig)
    (hN : (state.map (fun c => c.name)).Nodup) :
    (deploy_scheduled_materialize_query_run project_id region ga_property
        (Except.ok assigned_name) state).2
      = delete_scheduled_query "Update Web Vitals Summary" project_id region state
          ++ [{ deploy_requested_config project_id region ga_property with
                name := assigned_name }]
    ∧ (((deploy_scheduled_materialize_query_run project_id region ga_property
            (Except.ok assigned_name) state).2).filter
          (wvs_match (common_location_path project_id region)
            "Update Web Vitals Summary")).length = 1 := by
  refine ⟨rfl, ?_⟩
  have h2 : (deploy_scheduled_materialize_query_run project_id region ga_property
      (Except.ok assigned_name) state).2
      = delete_scheduled_query "Update Web Vitals Summary" project_id region state
          ++ [{ deploy_requested_config project_id region ga_property with
                name := assigned_name }] := rfl
  rw [h2, List.filter_append,
    delete_scheduled_query_eq_filter "Update Web Vitals Summary" project_id region state hN,
    List.filter_filter]
  have hz : state.filter
      (fun c => wvs_match (common_location_path project_id region)
          "Update Web Vitals Summary" c
        && !(wvs_match (common_location_path project_id region)
          "Update Web Vitals Summary" c)) = [] := by
    refine List.filter_eq_nil_iff.mpr (fun c _ => ?_)
    simp
  rw [hz]
  simp [wvs_match, deploy_requested_config]

/-- C4: `deploy_scheduled_materialize_query` is not atomic: when the deletion
pass succeeds but the create call fails, the error propagates unchanged, the
resulting state is just the delete-pass result (the deletions are kept, no
remediation), and that state contains no scheduled query under the
project/region displaying 'Update Web Vitals Summary'. -/
theorem deploy_scheduled_materialize_query_create_failure
    (project_id region ga_property err : String) (state : List TransferConfig)
    (hN : (state.map (fun c => c.name)).Nodup) :
    deploy_scheduled_materialize_query_run project_id region ga_property
        (Except.error err) state
      = (Except.error err,
          delete_scheduled_query "Update Web Vitals Summary" project_id region state)
    ∧ (((deploy_scheduled_materialize_query_run project_id region ga_property
            (Except.error err) state).2).filter
          (wvs_match (common_location_path project_id region)
            "Update Web Vitals Summary")).length = 0 := by
  refine ⟨rfl, ?_⟩
  have h2 : (deploy_scheduled_materialize_query_run project_id region ga_property
      (Except.error err) state).2
      = delete_scheduled_query "Update Web Vitals Summary" project_id region state := rfl
  rw [h2,
    delete_scheduled_query_eq_filter "Update Web Vitals Summary" project_id region state hN,
    List.filter_filter]
  have hz : state.filter
      (fun c => wvs_match (common_location_path project_id region)
          "Update Web Vitals Summary" c
        && !(wvs_match (common_location_path project_id region)
          "Update Web Vitals Summary" c)) = [] := by
    refine List.filter_eq_nil_iff.mpr (fun c _ => ?_)
    simp
  rw [hz]
  rfl

/-- Witness for C3 on a concrete one-config state: after a successful run the
state holds exactly one scheduled query displaying 'Update Web Vitals
Summary'. -/
theorem deploy_scheduled_materialize_query_delete_then_create_witness :
    (((deploy_scheduled_materialize_query_run "p" "r" "123" (Except.ok "nNew")
          [{ name := "nOld", parent := "projects/p/locations/r",
             display_name := "Update Web Vitals Summary",
             data_source_id := "scheduled_query", params_query := "old",
             schedule := "every 24 hours" }]).2).filter
        (wvs_match (common_location_path "p" "r") "Update Web Vitals Summary")).length
      = 1 :=
  (deploy_scheduled_materialize_query_delete_then_create "p" "r" "123" "nNew" _
    (by decide)).2

/-- Witness for C4 on a concrete one-config state: after a failed create the
state holds no scheduled query displaying 'Update Web Vitals Summary'. -/
theorem deploy_scheduled_materialize_query_create_failure_witness :
    (((deploy_scheduled_materialize_query_run "p" "r" "123" (Except.error "boom")
          [{ name := "nOld", parent := "projects/p/locations/r",
             display_name := "Update Web Vitals Summary",
             data_source_id := "scheduled_query", params_query := "old",
             schedule := "every 24 hours" }]).2).filter
        (wvs_match (common_location_path "p" "r") "Update Web Vitals Summary")).length
      = 0 :=
  (deploy_scheduled_materialize_query_create_failure "p" "r" "123" "boom" _
    (by decide)).2

/-- C5: for every finite well-formed paginated response sequence (each page
but the last carrying a `nextPageToken`, the last carrying none),
`get_gcp_regions` terminates — as many loop iterations as there are pages
suffice — and returns the region names aggregated from all pages, in page
order. -/
theorem get_gcp_regions_terminates_and_aggregates (pages : List RegionsPage)
    (hwf : pages_wf pages = true) :
    get_gcp_regions_fuel pages.length pages [] = some (get_gcp_regions pages)
    ∧ get_gcp_regions pages = (pages.map page_kept_names).flatten :=
  ⟨get_gcp_regions_fuel_complete pages pages.length [] le_rfl,
    get_gcp_regions_wf_flatten pages hwf⟩

/-- Witness for C5 on a concrete two-page fixture. -/
theorem get_gcp_regions_terminates_and_aggregates_witness :
    get_gcp_regions_fuel
        (List.length
          [({ items := [{ name := some "us-central1" }],
              nextPageToken := some "tok" } : RegionsPage),
           { items := [{ name := some "europe-west1" }, { name := none }],
             nextPageToken := none }])
        [({ items := [{ name := some "us-central1" }],
            nextPageToken := some "tok" } : RegionsPage),
         { items := [{ name := some "europe-west1" }, { name := none }],
           nextPageToken := none }] []
      = some (get_gcp_regions
          [({ items := [{ name := some "us-central1" }],
              nextPageToken := some "tok" } : RegionsPage),
           { items := [{ name := some "europe-west1" }, { name := none }],
             nextPageToken := none }])
    ∧ get_gcp_regions
          [({ items := [{ name := some "us-central1" }],
              nextPageToken := some "tok" } : RegionsPage),
           { items := [{ name := some "europe-west1" }, { name := none }],
             nextPageToken := none }]
        = (([({ items := [{ name := some "us-central1" }],
                nextPageToken := some "tok" } : RegionsPage),
             { items := [{ name := some "europe-west1" }, { name := none }],
               nextPageToken := none }]).map page_kept_names).flatten :=
  get_gcp_regions_terminates_and_aggregates _ (by decide)

/-- Counterexample for C6 as frozen: an item whose `'name'` value is the
empty string is dropped by `get_gcp_regions`, so the returned list is not the
sequence of names of the items of all pages. -/
theorem get_gcp_regions_empty_name_filtered :
    get_gcp_regions
        [{ items := [{ name := some "us-central1" }, { name := some "" }],
           nextPageToken := none }]
      ≠ spec_all_item_names
          [{ items := [{ name := some "us-central1" }, { name := some "" }],
             nextPageToken := none }] := by
  decide

/-- C6 (amended): `get_gcp_regions` applies no deduplication and no
reordering; for every well-formed response sequence the returned list is
exactly the names of the items of all pages in API-provided order, except
that items lacking a `'name'` key and items whose name is the empty string
are skipped. -/
theorem get_gcp_regions_api_order (pages : List RegionsPage)
    (hwf : pages_wf pages = true) :
    get_gcp_regions pages
      = (pages.map (fun page => page.items.filterMap
            (fun item =>
              match item.name with
              | some n => if n = "" then none else some n
              | none => none))).flatten := by
  rw [get_gcp_regions_wf_flatten pages hwf]
  rfl

/-- Witness for C6 on a fixture with a duplicate name, an unnamed item and an
empty name: duplicates are kept in order, the other two are skipped. -/
theorem get_gcp_regions_api_order_witness :
    get_gcp_regions
        [{ items := [{ name := some "a" }, { name := some "a" }, { name := none },
                     { name := some "" }, { name := some "b" }],
           nextPageToken := none }]
      = ["a", "a", "b"] := by
  rw [get_gcp_regions_api_order _ (by decide)]
  decide

/-- Counterexample for C7 as frozen: in a run where the user first asks the
region prompt for `list` and then supplies the non-numeric property id
`abc`, `main` does raise the fatal error, but only after the region-listing
cloud API call has already been made — so the fatal exit does not precede
every cloud API call. -/
theorem main_run_api_call_before_property_exit :
    (main_run
        { ga_property := none, region := none, email_server := some "m",
          email_user := some "u", email_password := some "pw",
          alert_recipients := some "a" }
        { credentials_project := some "proj", google_cloud_project := none,
          stdin := ["list", "us-central1", "abc"], transfer_state := [] }).2
      = Outcome.systemExit "Only GA4 properties are supported at this time."
    ∧ Event.callRegionsList
        ∈ (main_run
            { ga_property := none, region := none, email_server := some "m",
              email_user := some "u", email_password := some "pw",
              alert_recipients := some "a" }
            { credentials_project := some "proj", google_cloud_project := none,
              stdin := ["list", "us-central1", "abc"], transfer_state := [] }).1 := by
  decide

/-- C7 (amended): whenever the interactively supplied GA property id is not a
purely numeric string, `main` raises the fatal `SystemExit` with the fixed
message, and this exit happens before any deployment API call (the
scheduled-query listing, deletions and create are never reached); a
region-listing API call may precede the exit when the user asks for the
region list. -/
theorem main_run_nonnumeric_property_exit :
    (∀ (args : Args) (env : Env) (tr : List Event) (msg : String),
        main_run args env = (tr, Outcome.systemExit msg) →
          msg = "Only GA4 properties are supported at this time."
          ∧ Event.callListTransferConfigs ∉ tr
          ∧ Event.callDeleteTransferConfig ∉ tr
          ∧ Event.callCreateTransferConfig ∉ tr)
    ∧ (∀ (args : Args) (env : Env) (project_id : String) (ev : List Event)
          (region s : String) (rest : List String),
        resolve_project_id env.credentials_project env.google_cloud_project
            = Except.ok project_id →
        region_phase args.region env.stdin = (ev, some (region, s :: rest)) →
        falsy_int args.ga_property = true →
        py_isdigit (py_strip s) = false →
        main_run args env
          = (ev ++ [Event.promptProperty],
              Outcome.systemExit "Only GA4 properties are supported at this time.")) := by
  constructor
  · intro args env tr msg h
    unfold main_run at h
    split at h
    · simp at h
    · rename_i pid hres1
      split at h
      · simp at h
      · rename_i ev reg stdin1 heq2
        have hnotdeploy : ∀ e, e ∈ ev → e = Event.callRegionsList ∨ e = Event.promptRegion := by
          intro e he
          refine region_phase_events args.region env.stdin e ?_
          rw [heq2]
          exact he
        split at h
        · split at h
          · simp at h
          · rename_i s rest
            split at h
            · have hout := main_emails_outcome pid reg args
                (ev ++ [Event.promptProperty]) rest env.transfer_state
              rw [h] at hout
              simp at hout
            · rw [Prod.mk.injEq] at h
              obtain ⟨htr, hmsg⟩ := h
              have hmsg' : msg = "Only GA4 properties are supported at this time." := by
                cases hmsg
                rfl
              subst htr
              refine ⟨hmsg', ?_, ?_, ?_⟩ <;>
                · intro hmem
                  rcases List.mem_append.mp hmem with hm | hm
                  · rcases hnotdeploy _ hm with h' | h' <;> simp at h'
                  · simp at hm
        · have hout := main_emails_outcome pid reg args ev stdin1 env.transfer_state
          rw [h] at hout
          simp at hout
  · intro args env project_id ev region s rest hres hphase hfalsy hdig
    simp only [main_run, hres, hphase, hfalsy, hdig]
    simp

/-- Witness for C7: a run with the region given by flag and the scripted
non-numeric property answer `abc` ends in the fatal exit with only the
property prompt in its trace. -/
theorem main_run_nonnumeric_property_exit_witness :
    main_run
        { ga_property := none, region := some "us-central1",
          email_server := some "m", email_user := some "u",
          email_password := some "pw", alert_recipients := some "a" }
        { credentials_project := some "proj", google_cloud_project := none,
          stdin := ["abc"], transfer_state := [] }
      = ([Event.promptProperty],
          Outcome.systemExit "Only GA4 properties are supported at this time.") :=
  main_run_nonnumeric_property_exit.2
    { ga_property := none, region := some "us-central1", email_server := some "m",
      email_user := some "u", email_password := some "pw",
      alert_recipients := some "a" }
    { credentials_project := some "proj", google_cloud_project := none,
      stdin := ["abc"], transfer_state := [] }
    "proj" [] "us-central1" "abc" [] rfl rfl (by decide) (by decide)

/-- C8: whenever the ambient credentials resolve no project id (`None` or the
empty string), the project id used is the value of the `GOOGLE_CLOUD_PROJECT`
environment variable (its absence raising `KeyError`); whenever the
credentials resolve a non-empty project id, that id is used and the
environment variable is never consulted (the result is the same whatever the
variable holds). -/
theorem resolve_project_id_env_fallback :
    (∀ (cred gcp : Option String),
        cred = none ∨ cred = some "" →
        resolve_project_id cred gcp
          = match gcp with
            | some v => Except.ok v
            | none => Except.error "GOOGLE_CLOUD_PROJECT")
    ∧ (∀ (p : String) (gcp gcp' : Option String), p ≠ "" →
        resolve_project_id (some p) gcp = Except.ok p
        ∧ resolve_project_id (some p) gcp = resolve_project_id (some p) gcp') := by
  constructor
  · rintro cred gcp (rfl | rfl) <;> cases gcp <;> simp [resolve_project_id]
  · intro p gcp gcp' hp
    constructor <;> simp [resolve_project_id, hp]

/-- Witness for C8: with empty-string credentials the environment value is
used; with non-empty credentials the credentials' project id is used whether
or not the environment variable is set. -/
theorem resolve_project_id_env_fallback_witness :
    resolve_project_id (some "") (some "envproj") = Except.ok "envproj"
    ∧ resolve_project_id (some "credproj") none = Except.ok "credproj"
    ∧ resolve_project_id (some "credproj") none
        = resolve_project_id (some "credproj") (some "envproj") := by
  refine ⟨?_, ?_, ?_⟩
  · rw [resolve_project_id_env_fallback.1 (some "") (some "envproj") (Or.inr rfl)]
  · exact (resolve_project_id_env_fallback.2 "credproj" none (some "envproj")
      (by decide)).1
  · exact (resolve_project_id_env_fallback.2 "credproj" none (some "envproj")
      (by decide)).2

/-- C9: when the ambient credentials resolve no project id and
`GOOGLE_CLOUD_PROJECT` is absent, `main` raises the uncaught `KeyError` at
once: the trace is empty, so no interactive prompt is issued and no cloud API
call is made — in particular the user is never prompted for a project id. -/
theorem main_run_missing_project_keyerror (args : Args) (env : Env)
    (hcred : env.credentials_project = none ∨ env.credentials_project = some "")
    (hgcp : env.google_cloud_project = none) :
    main_run args env = ([], Outcome.keyError "GOOGLE_CLOUD_PROJECT") := by
  rcases hcred with h | h <;> simp [main_run, resolve_project_id, h, hgcp]

/-- Witness for C9 on a concrete environment with no resolvable project. -/
theorem main_run_missing_project_keyerror_witness :
    main_run
        { ga_property := some 7, region := some "us-central1",
          email_server := some "m", email_user := some "u",
          email_password := some "pw", alert_recipients := some "a" }
        { credentials_project := none, google_cloud_project := none,
          stdin := [], transfer_state := [] }
      = ([], Outcome.keyError "GOOGLE_CLOUD_PROJECT") :=
  main_run_missing_project_keyerror _ _ (Or.inl rfl) rfl
